import Mathlib

/-!
Shallow embedding of `src/arrow-adbc/src/implement/internal.rs`, the ADBC driver
adapter: the private-data protocol on opaque FFI handles, and the entry-point
shims that the driver table exposes to C callers.

Modelling conventions:
* A raw pointer argument is `Option x`: `none` is the null pointer, `some x` a
  valid pointer whose pointee is `x`.  Caller-owned output memory is
  `Option (Option v)`: the outer layer is pointer nullness, the inner layer the
  current contents of the pointed-to record.
* A shim that can exhibit undefined behaviour (dereferencing a null pointer) or
  fail to return returns an `Outcome`; shims whose every path returns a status
  code return a plain pair of the status code and the updated caller-visible
  state (handles and output memory), in argument order.
* The generic type parameters of the Rust shims become fields of the
  `DatabaseApi` / `ConnectionApi` / `StatementApi` records, which also carry the
  capability-interface operations (`interface.rs`) and the arrow collaborator
  functions (`FFI_ArrowSchema::try_from`, `make_array_from_raw`,
  `ArrowArrayStreamReader::from_raw`, the table-types batch construction) as
  abstract functions, since those live outside the adapter.
* `check_err!(res, error)` unwraps an `Ok` value or returns the error's status
  code after writing the message into the caller's error record; the error
  record itself carries no information that flows back into handles or outputs,
  so its contents are not tracked, only the returned status code is.
* The Rust `&mut` capability methods are modelled as returning the successor
  state; on the error path the handle keeps the state it had.
-/

namespace Adbc

/-- Modelled from the spec: the ABI status-code enumeration (`error.rs` is not
under `src/`); the spec requires at least Ok, InvalidState, InvalidArguments and
NotImplemented, with further implementation-defined codes passed through, here
`Other`. -/
inductive AdbcStatusCode where
  | Ok
  | InvalidState
  | InvalidArguments
  | NotImplemented
  | Other (code : Nat)
deriving DecidableEq, Repr

/-- Mirrors `enum AdbcFFIError` in `internal.rs`: the two adapter-internal error
kinds. -/
inductive AdbcFFIError where
  | InvalidState (msg : String)
  | NotImplemented (msg : String)
deriving DecidableEq, Repr

/-- Mirrors `impl AdbcError for AdbcFFIError { fn status_code }`. -/
def AdbcFFIError.status_code : AdbcFFIError → AdbcStatusCode
  | .InvalidState _ => .InvalidState
  | .NotImplemented _ => .NotImplemented

/-- An implementation-defined error value.  Of the `AdbcError` capability only
`status_code` feeds back into the shims' returned values, so an error is
represented by the status code it declares. -/
structure ImplError where
  status : AdbcStatusCode
deriving DecidableEq, Repr

/-- The `AdbcError::status_code` of an implementation error. -/
def ImplError.status_code (e : ImplError) : AdbcStatusCode := e.status

/-- Mirrors `std::str::Utf8Error`. -/
structure Utf8Error where
  valid_up_to : Nat
deriving DecidableEq, Repr

/-- Modelled from the spec: the `AdbcError` impl for `Utf8Error` lives in
`error.rs`, outside `src/`; the spec's error taxonomy has invalid string
encoding reported as an adapter-contract violation with status
InvalidArguments. -/
def Utf8Error.status_code (_ : Utf8Error) : AdbcStatusCode := .InvalidArguments

/-- The bytes behind a non-null C string pointer; `decoded` is the UTF-8
decoding when the bytes are valid UTF-8, `none` when they are not. -/
structure CStrBytes where
  decoded : Option String
deriving DecidableEq, Repr

/-- Mirrors `CStr::to_str`. -/
def CStrBytes.to_str (s : CStrBytes) : Except Utf8Error String :=
  match s.decoded with
  | some str => .ok str
  | none => .error ⟨0⟩

/-- Mirrors `get_maybe_str` in `internal.rs`: a null pointer decodes to `none`,
a non-null pointer is decoded with `CStr::to_str`. -/
def get_maybe_str (input : Option CStrBytes) : Except Utf8Error (Option String) :=
  match input with
  | none => .ok none
  | some s => (s.to_str).map some

/-- An opaque ADBC handle: the ABI-fixed record with its single untyped
`private_data` slot.  `none` is the null slot.  `FFI_AdbcDatabase`,
`FFI_AdbcConnection` and `FFI_AdbcStatement` are three structurally identical
records with identical `PrivateDataWrapper` impls, so they share one Lean
structure. -/
structure FFI_Handle (Inner : Type) where
  private_data : Option Inner
deriving DecidableEq, Repr

abbrev FFI_AdbcDatabase := FFI_Handle

abbrev FFI_AdbcConnection := FFI_Handle

abbrev FFI_AdbcStatement := FFI_Handle

/-- Mirrors `PrivateDataWrapper::init_inner`: fails with InvalidState if the
slot is non-null, otherwise boxes the value and stores it.  Returns the result
together with the new slot. -/
def init_inner {Inner : Type} (slot : Option Inner) (data : Inner) :
    Except AdbcFFIError Unit × Option Inner :=
  match slot with
  | none => (.ok (), some data)
  | some v => (.error (.InvalidState "Already initialized."), some v)

/-- Mirrors `PrivateDataWrapper::get_inner_ref` (and `get_inner_mut`): a null
slot yields InvalidState. -/
def get_inner_ref {Inner : Type} (slot : Option Inner) : Except AdbcFFIError Inner :=
  match slot with
  | some v => .ok v
  | none => .error (.InvalidState "Uninitialized.")

/-- Mirrors `PrivateDataWrapper::release_inner`: a no-op on a null slot,
otherwise reclaims the box and nulls the slot. -/
def release_inner {Inner : Type} (slot : Option Inner) : Option Inner :=
  match slot with
  | some _ => none
  | none => none

/-- Mirrors `try_unwrap`: null handle pointer yields InvalidState, then
`get_inner_ref` on the slot. -/
def try_unwrap {Inner : Type} (p : Option (FFI_Handle Inner)) :
    Except AdbcFFIError Inner :=
  match p with
  | none => .error (.InvalidState "Passed a null pointer.")
  | some w => get_inner_ref w.private_data

/-- Mirrors `try_unwrap_mut`, behaviourally identical to `try_unwrap`; the
mutably borrowed value is written back with `set_inner`. -/
def try_unwrap_mut {Inner : Type} (p : Option (FFI_Handle Inner)) :
    Except AdbcFFIError Inner :=
  match p with
  | none => .error (.InvalidState "Passed a null pointer.")
  | some w => get_inner_ref w.private_data

/-- Writes back a value mutated through `try_unwrap_mut` into the handle's
slot. -/
def set_inner {Inner : Type} (p : Option (FFI_Handle Inner)) (v : Inner) :
    Option (FFI_Handle Inner) :=
  p.map (fun _ => ⟨some v⟩)

/-- An opaque batch-sequence producer (`impl RecordBatchReader`). -/
structure ReaderVal where
  id : Nat
deriving DecidableEq, Repr

/-- An opaque arrow `Schema` value. -/
structure SchemaVal where
  id : Nat
deriving DecidableEq, Repr

/-- An opaque `FFI_ArrowSchema` C record value. -/
structure FfiSchemaVal where
  id : Nat
deriving DecidableEq, Repr

/-- An opaque `FFI_ArrowArray` C record value. -/
structure FfiArrayVal where
  id : Nat
deriving DecidableEq, Repr

/-- An opaque imported arrow array (`ArrayRef`). -/
structure ArrayRefVal where
  id : Nat
deriving DecidableEq, Repr

/-- The `AdbcObjectDepth` C enum, passed through to the capability. -/
structure AdbcObjectDepth where
  code : Nat
deriving DecidableEq, Repr

/-- The result of `StatementApi::execute`, as used by the shim:
`res.rows_affected` and the optional `res.result` batch reader. -/
structure StatementResult where
  rows_affected : Int
  result : Option ReaderVal
deriving DecidableEq, Repr

/-- The result of `StatementApi::execute_partitioned`, as used by the shim:
`res.schema`, `res.partition_ids`, `res.rows_affected`. -/
structure PartitionedResult where
  schema : SchemaVal
  partition_ids : List (List Nat)
  rows_affected : Int
deriving DecidableEq, Repr

/-- The observable outcome of one shim call: a returned status code with the
updated caller-visible state, undefined behaviour (a null pointer was
dereferenced), or failure to return (the call did not finish within any
fuel bound). -/
inductive Outcome (σ : Type) where
  | ret : AdbcStatusCode → σ → Outcome σ
  | ub : Outcome σ
  | hang : Outcome σ
deriving DecidableEq, Repr

/-- The database capability (`DatabaseApi` of `interface.rs` plus the
`Default` bound), with the erased Rust type parameter as the field `D`. -/
structure DatabaseApi where
  D : Type
  dflt : D
  init : D → Except ImplError Unit
  setOption : D → String → String → Except ImplError Unit

/-- The connection capability (`ConnectionApi` of `interface.rs` plus the
`Default` bound), with the connection type `C` and its associated database type
`DB`.  `try_from_schema` is `FFI_ArrowSchema::try_from`; `table_types_batch` is
the `StringArray` / `Schema` / `RecordBatch::try_new` / `BatchReader`
construction of `connection_get_table_types` collapsed into the arrow
collaborator. -/
structure ConnectionApi where
  C : Type
  DB : Type
  dflt : C
  init : C → DB → Except ImplError Unit
  setOption : C → String → String → Except ImplError Unit
  get_info : C → List Nat → Except ImplError ReaderVal
  get_objects : C → AdbcObjectDepth → Option String → Option String → Option String →
    List String → Option String → Except ImplError ReaderVal
  get_table_schema : C → Option String → Option String → String → Except ImplError SchemaVal
  get_table_types : C → Except ImplError (List String)
  read_partition : C → List Nat → Except ImplError ReaderVal
  commit : C → Except ImplError Unit
  rollback : C → Except ImplError Unit
  try_from_schema : SchemaVal → Except ImplError FfiSchemaVal
  table_types_batch : List String → Except ImplError ReaderVal

/-- The statement capability (`StatementApi` of `interface.rs`), with the
statement type `S` and its associated connection type `CONN`.  The `&mut self`
operations return the successor statement state.  The last three fields are the
arrow collaborator functions used by the statement shims. -/
structure StatementApi where
  S : Type
  CONN : Type
  new_from_connection : CONN → S
  execute : S → Except ImplError (StatementResult × S)
  prepare : S → Except ImplError S
  set_sql_query : S → String → Except ImplError S
  set_substrait_plan : S → List Nat → Except ImplError S
  bind_data : S → ArrayRefVal → Except ImplError S
  bind_stream : S → ReaderVal → Except ImplError S
  setOption : S → String → String → Except ImplError S
  get_param_schema : S → Except ImplError SchemaVal
  execute_partitioned : S → Except ImplError (PartitionedResult × S)
  try_from_schema : SchemaVal → Except ImplError FfiSchemaVal
  make_array_from_raw : Option FfiArrayVal → Option FfiSchemaVal → Except ImplError ArrayRefVal
  stream_reader_from_raw : Option ReaderVal → Except ImplError ReaderVal

/-- The ADBC driver table `FFI_AdbcDriver`: each function-pointer slot is
modelled by whether it is filled (`Some(shim)`). -/
structure FFI_AdbcDriver where
  private_data : Option Unit
  private_manager : Option Unit
  release : Bool
  DatabaseInit : Bool
  DatabaseNew : Bool
  DatabaseRelease : Bool
  DatabaseSetOption : Bool
  ConnectionCommit : Bool
  ConnectionGetInfo : Bool
  ConnectionInit : Bool
  ConnectionRelease : Bool
  ConnectionGetObjects : Bool
  ConnectionGetTableSchema : Bool
  ConnectionGetTableTypes : Bool
  ConnectionNew : Bool
  ConnectionReadPartition : Bool
  ConnectionRollback : Bool
  ConnectionSetOption : Bool
  StatementNew : Bool
  StatementBind : Bool
  StatementBindStream : Bool
  StatementExecutePartitions : Bool
  StatementExecuteQuery : Bool
  StatementGetParameterSchema : Bool
  StatementPrepare : Bool
  StatementRelease : Bool
  StatementSetOption : Bool
  StatementSetSqlQuery : Bool
  StatementSetSubstraitPlan : Bool
deriving DecidableEq, Repr

/-- Mirrors `init_adbc_driver`: every slot filled, `private_data` and
`private_manager` null. -/
def init_adbc_driver : FFI_AdbcDriver where
  private_data := none
  private_manager := none
  release := true
  DatabaseInit := true
  DatabaseNew := true
  DatabaseRelease := true
  DatabaseSetOption := true
  ConnectionCommit := true
  ConnectionGetInfo := true
  ConnectionInit := true
  ConnectionRelease := true
  ConnectionGetObjects := true
  ConnectionGetTableSchema := true
  ConnectionGetTableTypes := true
  ConnectionNew := true
  ConnectionReadPartition := true
  ConnectionRollback := true
  ConnectionSetOption := true
  StatementNew := true
  StatementBind := true
  StatementBindStream := true
  StatementExecutePartitions := true
  StatementExecuteQuery := true
  StatementGetParameterSchema := true
  StatementPrepare := true
  StatementRelease := true
  StatementSetOption := true
  StatementSetSqlQuery := true
  StatementSetSubstraitPlan := true

/-- Mirrors `release_adbc_driver`: if the driver pointer is non-null, set its
`release` slot to `None`; always return Ok. -/
def release_adbc_driver (driver : Option FFI_AdbcDriver) :
    AdbcStatusCode × Option FFI_AdbcDriver :=
  match driver with
  | none => (.Ok, none)
  | some d => (.Ok, some { d with release := false })

/-- Mirrors `database_new`: build the default database (wrapped in an `Arc`),
fail with InvalidState on a null handle pointer, then `init_inner` into the
slot. -/
def database_new (api : DatabaseApi) (database : Option (FFI_AdbcDatabase api.D)) :
    AdbcStatusCode × Option (FFI_AdbcDatabase api.D) :=
  match database with
  | none => ((AdbcFFIError.InvalidState "Passed a null pointer to DatabaseNew").status_code, none)
  | some w =>
    match init_inner w.private_data api.dflt with
    | (.ok _, slot) => (.Ok, some ⟨slot⟩)
    | (.error e, slot) => (e.status_code, some ⟨slot⟩)

/-- Mirrors `database_init`: InvalidState on a null handle pointer or null
slot, then the capability's `init`. -/
def database_init (api : DatabaseApi) (database : Option (FFI_AdbcDatabase api.D)) :
    AdbcStatusCode × Option (FFI_AdbcDatabase api.D) :=
  match database with
  | none => ((AdbcFFIError.InvalidState "Passed a null pointer to DatabaseInit").status_code, none)
  | some w =>
    match get_inner_ref w.private_data with
    | .error e => (e.status_code, some w)
    | .ok inner =>
      match api.init inner with
      | .error e => (e.status_code, some w)
      | .ok _ => (.Ok, some w)

/-- Mirrors `database_set_option`: `try_unwrap`, then `CStr::from_ptr` on `key`
and `value` directly — on a null pointer that is undefined behaviour (`.ub`),
there is no null check here. -/
def database_set_option (api : DatabaseApi) (database : Option (FFI_AdbcDatabase api.D))
    (key value : Option CStrBytes) : Outcome (Option (FFI_AdbcDatabase api.D)) :=
  match try_unwrap database with
  | .error e => .ret e.status_code database
  | .ok inner =>
    match key with
    | none => .ub
    | some keyBytes =>
      match keyBytes.to_str with
      | .error e => .ret e.status_code database
      | .ok k =>
        match value with
        | none => .ub
        | some valueBytes =>
          match valueBytes.to_str with
          | .error e => .ret e.status_code database
          | .ok v =>
            match api.setOption inner k v with
            | .error e => .ret e.status_code database
            | .ok _ => .ret .Ok database

/-- Mirrors `database_release`: nothing happens on a null handle pointer,
otherwise `release_inner`; always Ok. -/
def database_release {Inner : Type} (database : Option (FFI_AdbcDatabase Inner)) :
    AdbcStatusCode × Option (FFI_AdbcDatabase Inner) :=
  match database with
  | none => (.Ok, none)
  | some w => (.Ok, some ⟨release_inner w.private_data⟩)

/-- Mirrors `connection_new`. -/
def connection_new (api : ConnectionApi) (connection : Option (FFI_AdbcConnection api.C)) :
    AdbcStatusCode × Option (FFI_AdbcConnection api.C) :=
  match connection with
  | none => ((AdbcFFIError.InvalidState "Passed a null pointer to ConnectionNew").status_code, none)
  | some w =>
    match init_inner w.private_data api.dflt with
    | (.ok _, slot) => (.Ok, some ⟨slot⟩)
    | (.error e, slot) => (e.status_code, some ⟨slot⟩)

/-- Mirrors `connection_set_option`: like `database_set_option`, `key` and
`value` go through `CStr::from_ptr` with no null check. -/
def connection_set_option (api : ConnectionApi) (connection : Option (FFI_AdbcConnection api.C))
    (key value : Option CStrBytes) : Outcome (Option (FFI_AdbcConnection api.C)) :=
  match try_unwrap connection with
  | .error e => .ret e.status_code connection
  | .ok inner =>
    match key with
    | none => .ub
    | some keyBytes =>
      match keyBytes.to_str with
      | .error e => .ret e.status_code connection
      | .ok k =>
        match value with
        | none => .ub
        | some valueBytes =>
          match valueBytes.to_str with
          | .error e => .ret e.status_code connection
          | .ok v =>
            match api.setOption inner k v with
            | .error e => .ret e.status_code connection
            | .ok _ => .ret .Ok connection

/-- Mirrors `connection_init`: `try_unwrap` the connection, `try_unwrap` the
database, then the capability's `init` with a clone of the database's `Arc`. -/
def connection_init (api : ConnectionApi) (connection : Option (FFI_AdbcConnection api.C))
    (database : Option (FFI_AdbcDatabase api.DB)) :
    AdbcStatusCode × Option (FFI_AdbcConnection api.C) :=
  match try_unwrap connection with
  | .error e => (e.status_code, connection)
  | .ok inner =>
    match try_unwrap database with
    | .error e => (e.status_code, connection)
    | .ok db =>
      match api.init inner db with
      | .error e => (e.status_code, connection)
      | .ok _ => (.Ok, connection)

/-- Mirrors `connection_release`. -/
def connection_release {Inner : Type} (connection : Option (FFI_AdbcConnection Inner)) :
    AdbcStatusCode × Option (FFI_AdbcConnection Inner) :=
  match connection with
  | none => (.Ok, none)
  | some w => (.Ok, some ⟨release_inner w.private_data⟩)

/-- Mirrors `connection_get_info`: `try_unwrap`, then
`slice::from_raw_parts(info_codes, info_codes_length)` — undefined behaviour on
a null data pointer — then `get_info` and `export_reader_into_raw` into `out`,
which writes through the raw pointer with no null check. -/
def connection_get_info (api : ConnectionApi) (connection : Option (FFI_AdbcConnection api.C))
    (info_codes : Option (List Nat)) (out : Option (Option ReaderVal)) :
    Outcome (Option (FFI_AdbcConnection api.C) × Option (Option ReaderVal)) :=
  match try_unwrap connection with
  | .error e => .ret e.status_code (connection, out)
  | .ok inner =>
    match info_codes with
    | none => .ub
    | some codes =>
      match api.get_info inner codes with
      | .error e => .ret e.status_code (connection, out)
      | .ok reader =>
        match out with
        | none => .ub
        | some _ => .ret .Ok (connection, some (some reader))

/-- The possible results of the table-type decoding loop of
`connection_get_objects`, run with fuel. -/
inductive LoopResult where
  | done : List String → LoopResult
  | utf8err : Utf8Error → LoopResult
  | outOfFuel : LoopResult
  | ubRead : LoopResult
deriving DecidableEq, Repr

/-- Mirrors the decoding loop of `connection_get_objects`:
`let i = 0; while let Some(ptr) = table_type.offset(i).as_ref() { if !ptr.is_null() { push decode(ptr) } }`.
The index `i` is `0` and is never incremented, so every iteration reads the
element at offset 0 of the array; the loop exits only when `table_type` itself
is null.  A non-null entry is decoded (a decoding failure returns from the
shim); a null entry is skipped and the loop repeats.  Reading offset 0 of an
empty provided array is an invalid read. -/
def get_objects_loop (table_type : Option (List (Option CStrBytes)))
    (acc : List String) : Nat → LoopResult
  | 0 => .outOfFuel
  | fuel + 1 =>
    match table_type with
    | none => .done acc
    | some arr =>
      match arr[0]? with
      | none => .ubRead
      | some none => get_objects_loop table_type acc fuel
      | some (some cstr) =>
        match cstr.to_str with
        | .error e => .utf8err e
        | .ok s => get_objects_loop table_type (acc ++ [s]) fuel

/-- Mirrors `connection_get_objects`: `try_unwrap`, the four optional filter
strings through `get_maybe_str`, the table-type decoding loop, then the
capability's `get_objects` and `export_reader_into_raw` into `out`. -/
def connection_get_objects (api : ConnectionApi) (connection : Option (FFI_AdbcConnection api.C))
    (depth : AdbcObjectDepth) (catalog db_schema table_name : Option CStrBytes)
    (table_type : Option (List (Option CStrBytes))) (column_name : Option CStrBytes)
    (out : Option (Option ReaderVal)) (fuel : Nat) :
    Outcome (Option (FFI_AdbcConnection api.C) × Option (Option ReaderVal)) :=
  match try_unwrap connection with
  | .error e => .ret e.status_code (connection, out)
  | .ok inner =>
    match get_maybe_str catalog with
    | .error e => .ret e.status_code (connection, out)
    | .ok catalogStr =>
    match get_maybe_str db_schema with
    | .error e => .ret e.status_code (connection, out)
    | .ok db_schemaStr =>
    match get_maybe_str table_name with
    | .error e => .ret e.status_code (connection, out)
    | .ok table_nameStr =>
    match get_maybe_str column_name with
    | .error e => .ret e.status_code (connection, out)
    | .ok column_nameStr =>
      match get_objects_loop table_type [] fuel with
      | .outOfFuel => .hang
      | .ubRead => .ub
      | .utf8err e => .ret e.status_code (connection, out)
      | .done table_type_vec =>
        match api.get_objects inner depth catalogStr db_schemaStr table_nameStr
            table_type_vec column_nameStr with
        | .error e => .ret e.status_code (connection, out)
        | .ok reader =>
          match out with
          | none => .ub
          | some _ => .ret .Ok (connection, some (some reader))

/-- Mirrors `connection_get_table_schema`: `try_unwrap`, InvalidArguments on a
null output-schema pointer, decode the three strings, InvalidArguments on a
null `table_name`, then the capability call, `FFI_ArrowSchema::try_from` and
the unaligned write into `out_schema`. -/
def connection_get_table_schema (api : ConnectionApi)
    (connection : Option (FFI_AdbcConnection api.C))
    (catalog db_schema table_name : Option CStrBytes)
    (out_schema : Option (Option FfiSchemaVal)) :
    AdbcStatusCode × Option (Option FfiSchemaVal) :=
  match try_unwrap connection with
  | .error e => (e.status_code, out_schema)
  | .ok inner =>
    match out_schema with
    | none => (.InvalidArguments, none)
    | some mem =>
      match get_maybe_str catalog with
      | .error e => (e.status_code, some mem)
      | .ok catalogStr =>
      match get_maybe_str db_schema with
      | .error e => (e.status_code, some mem)
      | .ok db_schemaStr =>
      match get_maybe_str table_name with
      | .error e => (e.status_code, some mem)
      | .ok table_nameStr =>
        match table_nameStr with
        | none => (.InvalidArguments, some mem)
        | some tname =>
          match api.get_table_schema inner catalogStr db_schemaStr tname with
          | .error e => (e.status_code, some mem)
          | .ok schema =>
            match api.try_from_schema schema with
            | .error e => (e.status_code, some mem)
            | .ok ffi => (.Ok, some (some ffi))

/-- Mirrors `connection_get_table_types`: `try_unwrap`, the capability call,
the batch construction, then `export_reader_into_raw` into `out`. -/
def connection_get_table_types (api : ConnectionApi)
    (connection : Option (FFI_AdbcConnection api.C))
    (out : Option (Option ReaderVal)) :
    Outcome (Option (FFI_AdbcConnection api.C) × Option (Option ReaderVal)) :=
  match try_unwrap connection with
  | .error e => .ret e.status_code (connection, out)
  | .ok inner =>
    match api.get_table_types inner with
    | .error e => .ret e.status_code (connection, out)
    | .ok table_types =>
      match api.table_types_batch table_types with
      | .error e => .ret e.status_code (connection, out)
      | .ok reader =>
        match out with
        | none => .ub
        | some _ => .ret .Ok (connection, some (some reader))

/-- Mirrors `connection_read_partition`: `try_unwrap`, the partition slice via
`slice::from_raw_parts` (undefined behaviour on a null data pointer), the
capability call, then export into `out`. -/
def connection_read_partition (api : ConnectionApi)
    (connection : Option (FFI_AdbcConnection api.C))
    (serialized_partition : Option (List Nat)) (out : Option (Option ReaderVal)) :
    Outcome (Option (FFI_AdbcConnection api.C) × Option (Option ReaderVal)) :=
  match try_unwrap connection with
  | .error e => .ret e.status_code (connection, out)
  | .ok inner =>
    match serialized_partition with
    | none => .ub
    | some bytes =>
      match api.read_partition inner bytes with
      | .error e => .ret e.status_code (connection, out)
      | .ok reader =>
        match out with
        | none => .ub
        | some _ => .ret .Ok (connection, some (some reader))

/-- Mirrors `connection_commit`. -/
def connection_commit (api : ConnectionApi)
    (connection : Option (FFI_AdbcConnection api.C)) :
    AdbcStatusCode × Option (FFI_AdbcConnection api.C) :=
  match try_unwrap connection with
  | .error e => (e.status_code, connection)
  | .ok inner =>
    match api.commit inner with
    | .error e => (e.status_code, connection)
    | .ok _ => (.Ok, connection)

/-- Mirrors `connection_rollback`. -/
def connection_rollback (api : ConnectionApi)
    (connection : Option (FFI_AdbcConnection api.C)) :
    AdbcStatusCode × Option (FFI_AdbcConnection api.C) :=
  match try_unwrap connection with
  | .error e => (e.status_code, connection)
  | .ok inner =>
    match api.rollback inner with
    | .error e => (e.status_code, connection)
    | .ok _ => (.Ok, connection)

/-- Mirrors `statement_new`: `try_unwrap` the connection, build the statement
with `new_from_connection`, InvalidState on a null statement pointer, then
`init_inner` into the statement slot. -/
def statement_new (api : StatementApi) (connection_ptr : Option (FFI_AdbcConnection api.CONN))
    (statement_out : Option (FFI_AdbcStatement api.S)) :
    AdbcStatusCode × Option (FFI_AdbcStatement api.S) :=
  match try_unwrap connection_ptr with
  | .error e => (e.status_code, statement_out)
  | .ok conn =>
    match statement_out with
    | none => ((AdbcFFIError.InvalidState "Passed a null pointer to StatementNew").status_code, none)
    | some w =>
      match init_inner w.private_data (api.new_from_connection conn) with
      | (.ok _, slot) => (.Ok, some ⟨slot⟩)
      | (.error e, slot) => (e.status_code, some ⟨slot⟩)

/-- Mirrors `statement_release`. -/
def statement_release {Inner : Type} (statement : Option (FFI_AdbcStatement Inner)) :
    AdbcStatusCode × Option (FFI_AdbcStatement Inner) :=
  match statement with
  | none => (.Ok, none)
  | some w => (.Ok, some ⟨release_inner w.private_data⟩)

/-- Mirrors `statement_execute_query`: `try_unwrap_mut`, the capability's
`execute`, then the row count is written only if `rows_affected` is non-null
and the stream is exported only if `out` is non-null and a result was
produced. -/
def statement_execute_query (api : StatementApi) (statement : Option (FFI_AdbcStatement api.S))
    (out : Option (Option ReaderVal)) (rows_affected : Option Int) :
    AdbcStatusCode × Option (FFI_AdbcStatement api.S) ×
      Option (Option ReaderVal) × Option Int :=
  match try_unwrap_mut statement with
  | .error e => (e.status_code, statement, out, rows_affected)
  | .ok inner =>
    match api.execute inner with
    | .error e => (e.status_code, statement, out, rows_affected)
    | .ok (res, inner2) =>
      let rows2 := rows_affected.map (fun _ => res.rows_affected)
      let out2 :=
        match out with
        | none => none
        | some mem =>
          match res.result with
          | some reader => some (some reader)
          | none => some mem
      (.Ok, set_inner statement inner2, out2, rows2)

/-- Mirrors `statement_prepare`. -/
def statement_prepare (api : StatementApi) (statement : Option (FFI_AdbcStatement api.S)) :
    AdbcStatusCode × Option (FFI_AdbcStatement api.S) :=
  match try_unwrap_mut statement with
  | .error e => (e.status_code, statement)
  | .ok inner =>
    match api.prepare inner with
    | .error e => (e.status_code, statement)
    | .ok inner2 => (.Ok, set_inner statement inner2)

/-- Mirrors `statement_set_sql_query`: the query goes through `get_maybe_str`
and a null pointer is replaced by the empty string (`unwrap_or`). -/
def statement_set_sql_query (api : StatementApi) (statement : Option (FFI_AdbcStatement api.S))
    (query : Option CStrBytes) :
    AdbcStatusCode × Option (FFI_AdbcStatement api.S) :=
  match try_unwrap_mut statement with
  | .error e => (e.status_code, statement)
  | .ok inner =>
    match get_maybe_str query with
    | .error e => (e.status_code, statement)
    | .ok q =>
      match api.set_sql_query inner (q.getD "") with
      | .error e => (e.status_code, statement)
      | .ok inner2 => (.Ok, set_inner statement inner2)

/-- Mirrors `statement_set_substrait_plan`: the plan slice via
`slice::from_raw_parts` (undefined behaviour on a null data pointer). -/
def statement_set_substrait_plan (api : StatementApi)
    (statement : Option (FFI_AdbcStatement api.S)) (plan : Option (List Nat)) :
    Outcome (Option (FFI_AdbcStatement api.S)) :=
  match try_unwrap_mut statement with
  | .error e => .ret e.status_code statement
  | .ok inner =>
    match plan with
    | none => .ub
    | some bytes =>
      match api.set_substrait_plan inner bytes with
      | .error e => .ret e.status_code statement
      | .ok inner2 => .ret .Ok (set_inner statement inner2)

/-- Mirrors `statement_bind`: `try_unwrap_mut`, `make_array_from_raw` on the
array and schema records, then the capability's `bind_data`. -/
def statement_bind (api : StatementApi) (statement : Option (FFI_AdbcStatement api.S))
    (values : Option FfiArrayVal) (schema : Option FfiSchemaVal) :
    AdbcStatusCode × Option (FFI_AdbcStatement api.S) :=
  match try_unwrap_mut statement with
  | .error e => (e.status_code, statement)
  | .ok inner =>
    match api.make_array_from_raw values schema with
    | .error e => (e.status_code, statement)
    | .ok arr =>
      match api.bind_data inner arr with
      | .error e => (e.status_code, statement)
      | .ok inner2 => (.Ok, set_inner statement inner2)

/-- Mirrors `statement_bind_stream`: `try_unwrap_mut`, InvalidArguments on a
null stream pointer, `ArrowArrayStreamReader::from_raw`, then `bind_stream`. -/
def statement_bind_stream (api : StatementApi) (statement : Option (FFI_AdbcStatement api.S))
    (stream_ptr : Option (Option ReaderVal)) :
    AdbcStatusCode × Option (FFI_AdbcStatement api.S) :=
  match try_unwrap_mut statement with
  | .error e => (e.status_code, statement)
  | .ok inner =>
    match stream_ptr with
    | none => (.InvalidArguments, statement)
    | some mem =>
      match api.stream_reader_from_raw mem with
      | .error e => (e.status_code, statement)
      | .ok reader =>
        match api.bind_stream inner reader with
        | .error e => (e.status_code, statement)
        | .ok inner2 => (.Ok, set_inner statement inner2)

/-- Mirrors `statement_get_parameter_schema`: `try_unwrap` (shared borrow),
InvalidArguments on a null output-schema pointer, the capability call,
`FFI_ArrowSchema::try_from`, then the unaligned write. -/
def statement_get_parameter_schema (api : StatementApi)
    (statement : Option (FFI_AdbcStatement api.S))
    (out_schema : Option (Option FfiSchemaVal)) :
    AdbcStatusCode × Option (Option FfiSchemaVal) :=
  match try_unwrap statement with
  | .error e => (e.status_code, out_schema)
  | .ok inner =>
    match out_schema with
    | none => (.InvalidArguments, none)
    | some mem =>
      match api.get_param_schema inner with
      | .error e => (e.status_code, some mem)
      | .ok schema =>
        match api.try_from_schema schema with
        | .error e => (e.status_code, some mem)
        | .ok ffi => (.Ok, some (some ffi))

/-- Mirrors `statement_set_option`: both `key` and `value` go through
`get_maybe_str` and a null pointer is replaced by the empty string
(`unwrap_or`). -/
def statement_set_option (api : StatementApi) (statement : Option (FFI_AdbcStatement api.S))
    (key value : Option CStrBytes) :
    AdbcStatusCode × Option (FFI_AdbcStatement api.S) :=
  match try_unwrap_mut statement with
  | .error e => (e.status_code, statement)
  | .ok inner =>
    match get_maybe_str key with
    | .error e => (e.status_code, statement)
    | .ok k =>
      match get_maybe_str value with
      | .error e => (e.status_code, statement)
      | .ok v =>
        match api.setOption inner (k.getD "") (v.getD "") with
        | .error e => (e.status_code, statement)
        | .ok inner2 => (.Ok, set_inner statement inner2)

/-- Mirrors `statement_execute_partitions`: `try_unwrap_mut`, InvalidArguments
on a null output-schema or output-partitions pointer, `execute_partitioned`,
schema conversion and write, optional row-count write, partitions write. -/
def statement_execute_partitions (api : StatementApi)
    (statement : Option (FFI_AdbcStatement api.S))
    (out_schema : Option (Option FfiSchemaVal))
    (out_partitions : Option (Option (List (List Nat))))
    (rows_affected : Option Int) :
    AdbcStatusCode × Option (FFI_AdbcStatement api.S) × Option (Option FfiSchemaVal) ×
      Option (Option (List (List Nat))) × Option Int :=
  match try_unwrap_mut statement with
  | .error e => (e.status_code, statement, out_schema, out_partitions, rows_affected)
  | .ok inner =>
    match out_schema with
    | none => (.InvalidArguments, statement, none, out_partitions, rows_affected)
    | some smem =>
      match out_partitions with
      | none => (.InvalidArguments, statement, some smem, none, rows_affected)
      | some pmem =>
        match api.execute_partitioned inner with
        | .error e => (e.status_code, statement, some smem, some pmem, rows_affected)
        | .ok (res, inner2) =>
          match api.try_from_schema res.schema with
          | .error e => (e.status_code, set_inner statement inner2, some smem, some pmem,
              rows_affected)
          | .ok ffi =>
            (.Ok, set_inner statement inner2, some (some ffi),
              some (some res.partition_ids),
              rows_affected.map (fun _ => res.rows_affected))

/-- Replaces the cell at index `a` of a list by `f` of it; out-of-range indices
leave the list unchanged. -/
def modifyCell {β : Type} : List β → Nat → (β → β) → List β
  | [], _, _ => []
  | x :: xs, 0, f => f x :: xs
  | x :: xs, n + 1, f => x :: modifyCell xs n f

/-- A heap of atomically reference-counted allocations (`Arc`): each cell holds
the owned value while it is live, and its strong count.  Addresses are list
indices. -/
structure RcHeap (D : Type) where
  cells : List (Option D × Nat)
deriving DecidableEq, Repr

/-- `Arc::new`: a fresh allocation with strong count 1; returns its address. -/
def RcHeap.alloc {D : Type} (h : RcHeap D) (d : D) : Nat × RcHeap D :=
  (h.cells.length, ⟨h.cells ++ [(some d, 1)]⟩)

/-- `Arc::clone`: increments the strong count of the allocation. -/
def RcHeap.cloneCell {D : Type} (h : RcHeap D) (a : Nat) : RcHeap D :=
  ⟨modifyCell h.cells a (fun c => (c.fst, c.snd + 1))⟩

/-- Dropping one `Arc` reference: decrements the strong count, destroying the
owned value when the dropped reference was the last one. -/
def RcHeap.dropCell {D : Type} (h : RcHeap D) (a : Nat) : RcHeap D :=
  ⟨modifyCell h.cells a (fun c => if c.snd ≤ 1 then (none, 0) else (c.fst, c.snd - 1))⟩

/-- The strong count of the allocation at `a` (0 if absent or destroyed). -/
def RcHeap.strongAt {D : Type} (h : RcHeap D) (a : Nat) : Nat :=
  ((h.cells[a]?).map Prod.snd).getD 0

/-- Whether the owned value at `a` is still live (not destroyed). -/
def RcHeap.liveAt {D : Type} (h : RcHeap D) (a : Nat) : Bool :=
  (((h.cells[a]?).map Prod.fst).getD none).isSome

/-- Modelled from the spec: the connection capability's `init` receives
ownership of the cloned database `Arc` and the connection state retains it (the
spec's Connection state "holds a shared reference to its parent", attached by
ConnectionInit); `dbRef` is the address of the retained `Arc` allocation. -/
structure ConnPrivData (C : Type) where
  conn : C
  dbRef : Option Nat
deriving DecidableEq, Repr

/-- The caller-visible world of the reference-counting model: the `Arc` heap
for database allocations, the database handle, and the connection handle (the
connection's `Rc` box is modelled as directly owned by its slot, since only the
database's counts are at issue). -/
structure FfiWorld (D C : Type) where
  heap : RcHeap D
  db : Option (Option Nat)
  conn : Option (Option (ConnPrivData C))
deriving DecidableEq, Repr

/-- `database_new` in the reference-counting model: `Arc::new(default)` first
(a fresh allocation), then `init_inner`; if the handle pointer is null or the
slot is occupied the fresh `Arc` is dropped when it goes out of scope. -/
def database_new_rc {D C : Type} (dflt : D) (w : FfiWorld D C) :
    AdbcStatusCode × FfiWorld D C :=
  let (addr, heap1) := w.heap.alloc dflt
  match w.db with
  | none => (.InvalidState, { w with heap := heap1.dropCell addr })
  | some none => (.Ok, { w with heap := heap1, db := some (some addr) })
  | some (some a) => (.InvalidState, { w with heap := heap1.dropCell addr, db := some (some a) })

/-- `connection_new` in the reference-counting model: the default connection
state is boxed into the slot with no database reference yet. -/
def connection_new_rc {D C : Type} (cdflt : C) (w : FfiWorld D C) :
    AdbcStatusCode × FfiWorld D C :=
  match w.conn with
  | none => (.InvalidState, w)
  | some none => (.Ok, { w with conn := some (some ⟨cdflt, none⟩) })
  | some (some cp) => (.InvalidState, { w with conn := some (some cp) })

/-- `connection_init` in the reference-counting model: `try_unwrap` both
handles, then `db.clone()` (strong count + 1) and the capability's `init`
stores the clone in the connection state (dropping any previously stored
reference). -/
def connection_init_rc {D C : Type} (w : FfiWorld D C) :
    AdbcStatusCode × FfiWorld D C :=
  match w.conn with
  | none => (.InvalidState, w)
  | some none => (.InvalidState, w)
  | some (some cp) =>
    match w.db with
    | none => (.InvalidState, w)
    | some none => (.InvalidState, w)
    | some (some addr) =>
      let heap1 := w.heap.cloneCell addr
      let heap2 :=
        match cp.dbRef with
        | some old => heap1.dropCell old
        | none => heap1
      (.Ok, { w with heap := heap2, conn := some (some { cp with dbRef := some addr }) })

/-- `database_release` in the reference-counting model: dropping the boxed
`Arc` drops one strong reference; the slot is nulled; always Ok. -/
def database_release_rc {D C : Type} (w : FfiWorld D C) :
    AdbcStatusCode × FfiWorld D C :=
  match w.db with
  | none => (.Ok, w)
  | some none => (.Ok, w)
  | some (some addr) => (.Ok, { w with heap := w.heap.dropCell addr, db := some none })

/-- `connection_release` in the reference-counting model: dropping the boxed
connection state drops its stored database reference; the slot is nulled;
always Ok. -/
def connection_release_rc {D C : Type} (w : FfiWorld D C) :
    AdbcStatusCode × FfiWorld D C :=
  match w.conn with
  | none => (.Ok, w)
  | some none => (.Ok, w)
  | some (some cp) =>
    let heap1 :=
      match cp.dbRef with
      | some a => w.heap.dropCell a
      | none => w.heap
    (.Ok, { w with heap := heap1, conn := some none })

/-- A concrete database capability instance used to evaluate the shims on
closed inputs. -/
@[reducible] def exDatabaseApi : DatabaseApi where
  D := Nat
  dflt := 0
  init := fun _ => .ok ()
  setOption := fun _ _ _ => .ok ()

/-- A concrete connection capability instance used to evaluate the shims on
closed inputs. -/
@[reducible] def exConnectionApi : ConnectionApi where
  C := Nat
  DB := Nat
  dflt := 0
  init := fun _ _ => .ok ()
  setOption := fun _ _ _ => .ok ()
  get_info := fun _ _ => .ok ⟨0⟩
  get_objects := fun _ _ _ _ _ _ _ => .ok ⟨0⟩
  get_table_schema := fun _ _ _ _ => .ok ⟨0⟩
  get_table_types := fun _ => .ok []
  read_partition := fun _ _ => .ok ⟨0⟩
  commit := fun _ => .ok ()
  rollback := fun _ => .ok ()
  try_from_schema := fun s => .ok ⟨s.id⟩
  table_types_batch := fun _ => .ok ⟨0⟩

/-- A concrete statement capability instance used to evaluate the shims on
closed inputs: `execute` reports 5 affected rows, produces reader 7 and steps
the statement state by one. -/
@[reducible] def exStatementApi : StatementApi where
  S := Nat
  CONN := Nat
  new_from_connection := fun n => n
  execute := fun n => .ok ({ rows_affected := 5, result := some ⟨7⟩ }, n + 1)
  prepare := fun n => .ok n
  set_sql_query := fun n _ => .ok n
  set_substrait_plan := fun n _ => .ok n
  bind_data := fun n _ => .ok n
  bind_stream := fun n _ => .ok n
  setOption := fun n _ _ => .ok n
  get_param_schema := fun _ => .ok ⟨3⟩
  execute_partitioned := fun n => .ok ({ schema := ⟨3⟩, partition_ids := [[1]], rows_affected := 2 }, n)
  try_from_schema := fun s => .ok ⟨s.id⟩
  make_array_from_raw := fun _ _ => .ok ⟨0⟩
  stream_reader_from_raw := fun _ => .ok ⟨0⟩

/-- C1: for every handle kind (Database, Connection, Statement), calling the
*New entry point on a handle whose private-state slot is already non-null fails
with status InvalidState and leaves the previously stored state untouched. -/
theorem c1_new_on_initialized_handle_invalid_state :
    (∀ (api : DatabaseApi) (d : api.D),
      database_new api (some ⟨some d⟩) = (.InvalidState, some ⟨some d⟩))
  ∧ (∀ (api : ConnectionApi) (c : api.C),
      connection_new api (some ⟨some c⟩) = (.InvalidState, some ⟨some c⟩))
  ∧ (∀ (api : StatementApi) (connection_ptr : Option (FFI_AdbcConnection api.CONN)) (s : api.S),
      statement_new api connection_ptr (some ⟨some s⟩) = (.InvalidState, some ⟨some s⟩)) := by
  refine ⟨fun api d => rfl, fun api c => rfl, fun api cp s => ?_⟩
  rcases cp with _ | ⟨(_ | c)⟩ <;> rfl

/-- C2: for every handle kind, the *Release entry point on a handle whose slot
is null returns Ok and changes nothing, and releasing twice in a row returns Ok
both times with the slot null afterwards (release is idempotent). -/
theorem c2_release_noop_and_idempotent :
    (∀ (Inner : Type),
      database_release (none : Option (FFI_AdbcDatabase Inner)) = (.Ok, none)
      ∧ database_release (some (⟨none⟩ : FFI_AdbcDatabase Inner)) = (.Ok, some ⟨none⟩)
      ∧ ∀ h : Option (FFI_AdbcDatabase Inner),
          (database_release h).fst = .Ok
          ∧ (database_release h).snd = h.map (fun _ => ⟨none⟩)
          ∧ database_release (database_release h).snd = (.Ok, (database_release h).snd))
  ∧ (∀ (Inner : Type),
      connection_release (none : Option (FFI_AdbcConnection Inner)) = (.Ok, none)
      ∧ connection_release (some (⟨none⟩ : FFI_AdbcConnection Inner)) = (.Ok, some ⟨none⟩)
      ∧ ∀ h : Option (FFI_AdbcConnection Inner),
          (connection_release h).fst = .Ok
          ∧ (connection_release h).snd = h.map (fun _ => ⟨none⟩)
          ∧ connection_release (connection_release h).snd = (.Ok, (connection_release h).snd))
  ∧ (∀ (Inner : Type),
      statement_release (none : Option (FFI_AdbcStatement Inner)) = (.Ok, none)
      ∧ statement_release (some (⟨none⟩ : FFI_AdbcStatement Inner)) = (.Ok, some ⟨none⟩)
      ∧ ∀ h : Option (FFI_AdbcStatement Inner),
          (statement_release h).fst = .Ok
          ∧ (statement_release h).snd = h.map (fun _ => ⟨none⟩)
          ∧ statement_release (statement_release h).snd = (.Ok, (statement_release h).snd)) := by
  refine ⟨fun Inner => ⟨rfl, rfl, fun h => ?_⟩,
    fun Inner => ⟨rfl, rfl, fun h => ?_⟩,
    fun Inner => ⟨rfl, rfl, fun h => ?_⟩⟩ <;>
  rcases h with _ | ⟨(_ | v)⟩ <;> exact ⟨rfl, rfl, rfl⟩

/-- C3: evaluation at the failing inputs: ConnectionGetInfo on an initialized
connection with a null `info_codes` pointer reaches
`slice::from_raw_parts(null, len)` — undefined behaviour, not an
InvalidArguments/InvalidState return — and DatabaseSetOption on an initialized
database with a null `key` reaches `CStr::from_ptr(null)`, likewise undefined
behaviour. -/
theorem c3_null_argument_reaches_undefined_behaviour :
    connection_get_info exConnectionApi (some ⟨some 0⟩) none (some none) = .ub
    ∧ database_set_option exDatabaseApi (some ⟨some 0⟩) none (some ⟨some "value"⟩) = .ub :=
  ⟨rfl, rfl⟩

/-- Helper for C4: when the first entry of the table-type array is a valid,
non-null C string, the decoding loop of `connection_get_objects` exhausts any
amount of fuel without exiting, because its index is never incremented. -/
theorem get_objects_loop_never_returns (s : String) (rest : List (Option CStrBytes)) :
    ∀ (fuel : Nat) (acc : List String),
      get_objects_loop (some (some ⟨some s⟩ :: rest)) acc fuel = .outOfFuel := by
  intro fuel
  induction fuel with
  | zero => intro acc; rfl
  | succ n ih =>
    intro acc
    simpa [get_objects_loop, CStrBytes.to_str] using ih (acc ++ [s])

/-- C4: evaluation at the failing input: ConnectionGetObjects on an initialized
connection with the non-null, null-terminated table-type array
`{"table", NULL}` never returns, for every fuel bound — the decoding loop never
increments its index, so the call does not complete, contrary to the claim that
it decodes the strings before the terminator and completes for every input. -/
theorem c4_get_objects_never_completes (fuel : Nat) :
    connection_get_objects exConnectionApi (some ⟨some 0⟩) ⟨0⟩ none none none
      (some [some ⟨some "table"⟩, none]) none (some none) fuel = .hang := by
  have h := get_objects_loop_never_returns "table" [none] fuel []
  simp [connection_get_objects, try_unwrap, get_inner_ref, get_maybe_str, h]

/-- C5 counterexample: DatabaseSetOption on an initialized database with a null
key pointer does not substitute the empty string and invoke the capability — it
dereferences the null pointer (undefined behaviour), which is not a returning
outcome at all. -/
theorem c5_counterexample_database_null_key :
    database_set_option exDatabaseApi (some ⟨some 0⟩) none (some ⟨some "v"⟩) = .ub
    ∧ (Outcome.ub : Outcome (Option (FFI_AdbcDatabase exDatabaseApi.D)))
        ≠ .ret .Ok (some ⟨some 0⟩) := by
  exact ⟨rfl, by simp⟩

/-- C5 amended: only StatementSetOption and StatementSetSqlQuery treat a null
string argument (key, value, or query) as the empty string; DatabaseSetOption
and ConnectionSetOption instead pass the null pointer straight to
`CStr::from_ptr`, which is undefined behaviour. -/
theorem c5_amended_null_as_empty_only_statement_shims :
    (∀ (api : StatementApi) (st : Option (FFI_AdbcStatement api.S)) (v : Option CStrBytes),
      statement_set_option api st none v
        = statement_set_option api st (some ⟨some ""⟩) v)
  ∧ (∀ (api : StatementApi) (st : Option (FFI_AdbcStatement api.S)) (k : Option CStrBytes),
      statement_set_option api st k none
        = statement_set_option api st k (some ⟨some ""⟩))
  ∧ (∀ (api : StatementApi) (st : Option (FFI_AdbcStatement api.S)),
      statement_set_sql_query api st none
        = statement_set_sql_query api st (some ⟨some ""⟩))
  ∧ (∀ (api : DatabaseApi) (d : api.D) (v : Option CStrBytes),
      database_set_option api (some ⟨some d⟩) none v = .ub)
  ∧ (∀ (api : ConnectionApi) (c : api.C) (v : Option CStrBytes),
      connection_set_option api (some ⟨some c⟩) none v = .ub) := by
  refine ⟨fun api st v => ?_, fun api st k => ?_, fun api st => ?_,
    fun api d v => rfl, fun api c v => rfl⟩
  · rcases st with _ | ⟨(_ | s)⟩ <;> rfl
  · rcases st with _ | ⟨(_ | s)⟩ <;> rcases k with _ | ⟨(_ | kstr)⟩ <;> rfl
  · rcases st with _ | ⟨(_ | s)⟩ <;> rfl

/-- C6: StatementExecuteQuery on an initialized statement invokes the
capability's `execute`; the row count is written into the caller's integer only
if that pointer is non-null, the result stream is written only if that pointer
is non-null and the capability produced a result, and with both output pointers
null a successful execute still happens and the shim returns Ok with no output
written. -/
theorem c6_execute_query_contract (api : StatementApi) (s s2 : api.S)
    (res : StatementResult) (hex : api.execute s = .ok (res, s2)) :
    (∀ (out : Option (Option ReaderVal)) (rows : Option Int),
      statement_execute_query api (some ⟨some s⟩) out rows =
        (.Ok, some ⟨some s2⟩,
          (match out, res.result with
            | none, _ => none
            | some _, some reader => some (some reader)
            | some mem, none => some mem),
          rows.map (fun _ => res.rows_affected)))
  ∧ statement_execute_query api (some ⟨some s⟩) none none =
      (.Ok, some ⟨some s2⟩, none, none) := by
  constructor
  · intro out rows
    cases out with
    | none =>
      simp [statement_execute_query, try_unwrap_mut, get_inner_ref, hex, set_inner]
    | some mem =>
      cases hres : res.result <;>
        simp [statement_execute_query, try_unwrap_mut, get_inner_ref, hex, set_inner, hres]
  · simp [statement_execute_query, try_unwrap_mut, get_inner_ref, hex, set_inner]

/-- Witness for C6 at a concrete capability instance and inputs. -/
theorem c6_witness :
    statement_execute_query exStatementApi (some ⟨some 0⟩) none none =
      (.Ok, some ⟨some 1⟩, none, none) :=
  (c6_execute_query_contract exStatementApi 0 1
    { rows_affected := 5, result := some ⟨7⟩ } rfl).2

/-- C7: ConnectionGetTableSchema and StatementGetParameterSchema return
InvalidArguments on a null output-schema pointer, and ConnectionGetTableSchema
returns InvalidArguments on a null table_name pointer; in both failure cases
the capability operation is not invoked (the result is the same for every
capability implementation `f`) and the output memory is not written. -/
theorem c7_schema_null_pointer_guards :
    (∀ (api : ConnectionApi) (c : api.C)
       (f : api.C → Option String → Option String → String → Except ImplError SchemaVal)
       (catalog db_schema table_name : Option CStrBytes),
      connection_get_table_schema { api with get_table_schema := f } (some ⟨some c⟩)
        catalog db_schema table_name none = (.InvalidArguments, none))
  ∧ (∀ (api : ConnectionApi) (c : api.C)
       (f : api.C → Option String → Option String → String → Except ImplError SchemaVal)
       (catalog db_schema : Option String) (mem : Option FfiSchemaVal),
      connection_get_table_schema { api with get_table_schema := f } (some ⟨some c⟩)
        (catalog.map (fun str => ⟨some str⟩)) (db_schema.map (fun str => ⟨some str⟩)) none
        (some mem) = (.InvalidArguments, some mem))
  ∧ (∀ (api : StatementApi) (st : api.S) (f : api.S → Except ImplError SchemaVal),
      statement_get_parameter_schema { api with get_param_schema := f } (some ⟨some st⟩)
        none = (.InvalidArguments, none)) := by
  refine ⟨fun api c f catalog db_schema table_name => rfl, ?_, fun api st f => rfl⟩
  intro api c f catalog db_schema mem
  cases catalog <;> cases db_schema <;> rfl

/-- C8: ConnectionInit clones the parent Database's `Arc` (strong count 1 → 2),
so a subsequent DatabaseRelease drops only the handle's reference (count back
to 1) and leaves the Database state live; the state is destroyed (count 0,
value dropped) only when the Connection's reference is also dropped by
ConnectionRelease. -/
theorem c8_connection_keeps_database_alive (D C : Type) (dflt : D) (cdflt : C) :
    let w0 : FfiWorld D C := ⟨⟨[]⟩, some none, some none⟩
    let w1 := (database_new_rc dflt w0).snd
    let w2 := (connection_new_rc cdflt w1).snd
    let w3 := (connection_init_rc w2).snd
    let w4 := (database_release_rc w3).snd
    let w5 := (connection_release_rc w4).snd
    (database_new_rc dflt w0).fst = .Ok
    ∧ w1.heap.strongAt 0 = 1
    ∧ (connection_init_rc w2).fst = .Ok
    ∧ w3.heap.strongAt 0 = 2
    ∧ (database_release_rc w3).fst = .Ok
    ∧ w4.db = some none
    ∧ w4.heap.strongAt 0 = 1
    ∧ w4.heap.liveAt 0 = true
    ∧ w5.heap.strongAt 0 = 0
    ∧ w5.heap.liveAt 0 = false := by
  exact ⟨rfl, rfl, rfl, rfl, rfl, rfl, rfl, rfl, rfl, rfl⟩

/-- C9: the driver-table release function clears only the table's own release
function pointer, leaves every other field unchanged, returns Ok, and is
idempotent; it takes no handle, so no handle is touched. -/
theorem c9_driver_release_only_clears_release_slot :
    release_adbc_driver none = (.Ok, none)
    ∧ (∀ d : FFI_AdbcDriver,
        release_adbc_driver (some d) = (.Ok, some { d with release := false }))
    ∧ (∀ d : FFI_AdbcDriver,
        release_adbc_driver (release_adbc_driver (some d)).snd
          = release_adbc_driver (some d)) := by
  exact ⟨rfl, fun d => rfl, fun d => rfl⟩

/-- C10: for every handle kind the *Release entry point tolerates a null handle
pointer and returns Ok, while every other entry point returns InvalidState on a
null handle pointer (for either of its handle arguments), for all values of the
remaining arguments. -/
theorem c10_null_handle_release_ok_others_invalid_state :
    (∀ (Inner : Type), database_release (none : Option (FFI_AdbcDatabase Inner)) = (.Ok, none))
  ∧ (∀ (Inner : Type), connection_release (none : Option (FFI_AdbcConnection Inner)) = (.Ok, none))
  ∧ (∀ (Inner : Type), statement_release (none : Option (FFI_AdbcStatement Inner)) = (.Ok, none))
  ∧ (∀ (api : DatabaseApi), database_new api none = (.InvalidState, none))
  ∧ (∀ (api : DatabaseApi), database_init api none = (.InvalidState, none))
  ∧ (∀ (api : DatabaseApi) (key value : Option CStrBytes),
      database_set_option api none key value = .ret .InvalidState none)
  ∧ (∀ (api : ConnectionApi), connection_new api none = (.InvalidState, none))
  ∧ (∀ (api : ConnectionApi) (db : Option (FFI_AdbcDatabase api.DB)),
      connection_init api none db = (.InvalidState, none))
  ∧ (∀ (api : ConnectionApi) (c : api.C),
      connection_init api (some ⟨some c⟩) none = (.InvalidState, some ⟨some c⟩))
  ∧ (∀ (api : ConnectionApi) (key value : Option CStrBytes),
      connection_set_option api none key value = .ret .InvalidState none)
  ∧ (∀ (api : ConnectionApi) (info_codes : Option (List Nat)) (out : Option (Option ReaderVal)),
      connection_get_info api none info_codes out = .ret .InvalidState (none, out))
  ∧ (∀ (api : ConnectionApi) (depth : AdbcObjectDepth)
      (catalog db_schema table_name column_name : Option CStrBytes)
      (table_type : Option (List (Option CStrBytes))) (out : Option (Option ReaderVal))
      (fuel : Nat),
      connection_get_objects api none depth catalog db_schema table_name table_type
        column_name out fuel = .ret .InvalidState (none, out))
  ∧ (∀ (api : ConnectionApi) (catalog db_schema table_name : Option CStrBytes)
      (out_schema : Option (Option FfiSchemaVal)),
      connection_get_table_schema api none catalog db_schema table_name out_schema
        = (.InvalidState, out_schema))
  ∧ (∀ (api : ConnectionApi) (out : Option (Option ReaderVal)),
      connection_get_table_types api none out = .ret .InvalidState (none, out))
  ∧ (∀ (api : ConnectionApi) (bytes : Option (List Nat)) (out : Option (Option ReaderVal)),
      connection_read_partition api none bytes out = .ret .InvalidState (none, out))
  ∧ (∀ (api : ConnectionApi), connection_commit api none = (.InvalidState, none))
  ∧ (∀ (api : ConnectionApi), connection_rollback api none = (.InvalidState, none))
  ∧ (∀ (api : StatementApi) (stOut : Option (FFI_AdbcStatement api.S)),
      statement_new api none stOut = (.InvalidState, stOut))
  ∧ (∀ (api : StatementApi) (c : api.CONN),
      statement_new api (some ⟨some c⟩) none = (.InvalidState, none))
  ∧ (∀ (api : StatementApi) (out : Option (Option ReaderVal)) (rows : Option Int),
      statement_execute_query api none out rows = (.InvalidState, none, out, rows))
  ∧ (∀ (api : StatementApi), statement_prepare api none = (.InvalidState, none))
  ∧ (∀ (api : StatementApi) (q : Option CStrBytes),
      statement_set_sql_query api none q = (.InvalidState, none))
  ∧ (∀ (api : StatementApi) (plan : Option (List Nat)),
      statement_set_substrait_plan api none plan = .ret .InvalidState none)
  ∧ (∀ (api : StatementApi) (values : Option FfiArrayVal) (schema : Option FfiSchemaVal),
      statement_bind api none values schema = (.InvalidState, none))
  ∧ (∀ (api : StatementApi) (sp : Option (Option ReaderVal)),
      statement_bind_stream api none sp = (.InvalidState, none))
  ∧ (∀ (api : StatementApi) (out_schema : Option (Option FfiSchemaVal)),
      statement_get_parameter_schema api none out_schema = (.InvalidState, out_schema))
  ∧ (∀ (api : StatementApi) (key value : Option CStrBytes),
      statement_set_option api none key value = (.InvalidState, none))
  ∧ (∀ (api : StatementApi) (os : Option (Option FfiSchemaVal))
      (op : Option (Option (List (List Nat)))) (rows : Option Int),
      statement_execute_partitions api none os op rows = (.InvalidState, none, os, op, rows)) := by
  repeat' apply And.intro
  all_goals intros
  all_goals rfl

end Adbc
